import Mathlib

/-!
Verification of `merge_and_post_to_facebook.py`: a shallow embedding of the
script's data model and operations, with theorems checking the specification's
claims about selection, composition, title derivation, publishing and the
usage-tracker invariants.

Durations are modelled as rationals, Python dictionaries holding usage records
as structures with `Option`-valued fields (a `none` field models a missing
key), and fallible Python code as `Except`-valued functions; the `except`
handlers of the script become explicit `match`es on the error case.
-/

set_option maxRecDepth 4000

/-- Python exception values that the script's code paths can raise. -/
inductive PyExc where
  | nameError : String → PyExc
  | keyError : String → PyExc
  | jsonDecodeError : PyExc
  | ioError : PyExc
deriving DecidableEq

/-- The module-level names bound by the import statements at the top of
`merge_and_post_to_facebook.py` (lines 1-11): `import os`, `import random`,
`import cloudinary` (plus submodule imports binding the same name),
`from moviepy.editor import VideoFileClip, AudioFileClip, CompositeAudioClip,
concatenate_videoclips`, `import requests`, `import tempfile`, `import shutil`,
`import json`, `import sys`.  The name `re` is NOT among them. -/
def importedNames : List String :=
  ["os", "random", "cloudinary", "VideoFileClip", "AudioFileClip",
   "CompositeAudioClip", "concatenate_videoclips", "requests", "tempfile",
   "shutil", "json", "sys"]

/-- Python name resolution at module scope: a name that is not bound raises
`NameError`. -/
def resolveName (n : String) : Except PyExc Unit :=
  if n ∈ importedNames then Except.ok () else Except.error (PyExc.nameError n)

/-! ## String helpers mirroring `os.path` / `str` operations -/

/-- `os.path.basename`: the part of a path after the last slash. -/
def basenameChars (p : List Char) : List Char :=
  (p.reverse.takeWhile (fun c => c ≠ '/')).reverse

/-- The extension part of `os.path.splitext` applied to a final path
component: the suffix from the last dot, where leading dots of the name do
not count as extension separators. -/
def splitextExtChars (base : List Char) : List Char :=
  let stem := base.dropWhile (fun c => c = '.')
  if stem.any (fun c => c = '.') then
    '.' :: (stem.reverse.takeWhile (fun c => c ≠ '.')).reverse
  else []

/-- The root part of `os.path.splitext` applied to a final path component. -/
def splitextRootChars (base : List Char) : List Char :=
  base.take (base.length - (splitextExtChars base).length)

/-- `str.lower` on each character. -/
def lowerChars (l : List Char) : List Char := l.map Char.toLower

/-- Line 88-89 of the script: `url_path = res['secure_url'].split('?')[0]`
then `ext = os.path.splitext(url_path)[1].lower()`. -/
def url_ext (url : String) : String :=
  String.mk (lowerChars (splitextExtChars (basenameChars
    (url.data.takeWhile (fun c => c ≠ '?')))))

/-! ## Title derivation (lines 163-172) -/

/-- `re.sub(r'-\d+$', '', name)` on a reversed character list: if the
reversed name starts with a nonempty digit run followed by a hyphen, drop
both; otherwise leave the list unchanged. -/
def stripIdSuffixAux (rev : List Char) : List Char :=
  if (rev.takeWhile Char.isDigit).isEmpty then rev
  else
    match rev.dropWhile Char.isDigit with
    | c :: restTail => if c = '-' then restTail else rev
    | [] => rev

/-- Line 166: `re.sub(r'-\d+$', '', original_video_basename)` — remove a
trailing hyphen-plus-digits suffix if present. -/
def stripIdSuffix (l : List Char) : List Char :=
  (stripIdSuffixAux l.reverse).reverse

/-- Whether a name ends in a hyphen followed by one or more digits, i.e.
whether `re.sub(r'-\d+$', '', name)` would change the name. -/
def hasIdSuffix (l : List Char) : Bool :=
  let rev := l.reverse
  (!(rev.takeWhile Char.isDigit).isEmpty) &&
    (match rev.dropWhile Char.isDigit with
     | c :: _ => decide (c = '-')
     | [] => false)

/-- `str.replace` for single characters (line 169 and line 175 use
single-character replacements only). -/
def replaceChar (a b : Char) (l : List Char) : List Char :=
  l.map (fun c => if c = a then b else c)

/-- The characters Python `str.strip()` removes by default. -/
def isPyWs (c : Char) : Bool :=
  c == ' ' || c == '\t' || c == '\n' || c == '\r' || c == '\x0b' || c == '\x0c'

/-- Python `str.strip()`: remove leading and trailing whitespace. -/
def pyStrip (l : List Char) : List Char :=
  ((l.dropWhile isPyWs).reverse.dropWhile isPyWs).reverse

/-- Lines 166-172: the title-cleaning transformation applied to the base
name of the source video: strip a trailing `-digits` suffix, replace
underscores with spaces, replace the em-dash with a hyphen, strip
surrounding whitespace. -/
def clean_name_chars (basename : List Char) : List Char :=
  pyStrip (replaceChar '—' '-' (replaceChar '_' ' ' (stripIdSuffix basename)))

/-- The title derived from a (already extension-free) video base name. -/
def clean_original_video_name (s : String) : String :=
  String.mk (clean_name_chars s.data)

/-! ## Audio/video composition (lines 149-158) -/

/-- A moviepy clip as built by the script: a loaded source clip of known
duration, a `subclip(a, b)` of a clip, or a concatenation of a list of
clips. -/
inductive AClip where
  | src : ℚ → AClip
  | subclip : AClip → ℚ → ℚ → AClip
  | concat : List AClip → AClip

mutual

def AClip.duration : AClip → ℚ
  | AClip.src d => d
  | AClip.subclip _ a b => b - a
  | AClip.concat cs => AClip.durationList cs

def AClip.durationList : List AClip → ℚ
  | [] => 0
  | c :: cs => AClip.duration c + AClip.durationList cs

end

/-- Python `int()` applied to a (rational-modelled) float: truncation toward
zero. -/
def pyInt (q : ℚ) : ℤ := if 0 ≤ q then ⌊q⌋ else ⌈q⌉

/-- Lines 149-158 of `merge_video_with_audio`: reconcile the audio clip's
duration with the video duration `vd`.  If the audio is longer, trim it with
`subclip(0, vd)`; if shorter, build `[audio] * (int(vd / ad) + 1)`,
concatenate, and take `subclip(0, vd)`; if equal, use as-is. -/
def adjustAudio (audio : AClip) (vd : ℚ) : AClip :=
  if vd < audio.duration then AClip.subclip audio 0 vd
  else if audio.duration < vd then
    AClip.subclip
      (AClip.concat (List.replicate (pyInt (vd / audio.duration) + 1).toNat audio))
      0 vd
  else audio

/-! ## The merge step (lines 131-192) -/

/-- The external effects of one `merge_video_with_audio` call:
whether `VideoFileClip` / `AudioFileClip` load successfully (and with what
container durations), and whether `write_videofile` succeeds.  The output
directory creation of lines 138-140 is modelled as succeeding (in the
pipeline the output folder is the already-existing temp directory). -/
structure MergeEnv where
  videoLoad : Option ℚ
  audioLoad : Option ℚ
  writeOk : Bool

/-- The `try:` body of `merge_video_with_audio` (lines 142-188).  After
loading both clips and adjusting the audio duration, line 166 evaluates
`re.sub(...)`, which first resolves the module-scope name `re`. -/
def merge_body (env : MergeEnv) (video_path : String) (output_folder : String) :
    Except PyExc (String × String) :=
  match env.videoLoad with
  | none => Except.error PyExc.ioError
  | some vd =>
    match env.audioLoad with
    | none => Except.error PyExc.ioError
    | some ad =>
      let _final_audio := adjustAudio (AClip.src ad) vd
      let original_video_basename :=
        splitextRootChars (basenameChars video_path.data)
      match resolveName ("re") with
      | Except.error e => Except.error e
      | Except.ok _ =>
        let clean := clean_name_chars original_video_basename
        let output_filename :=
          ("merged_") ++ String.mk (replaceChar ' ' '_' clean) ++ (".mp4")
        let output_path := output_folder ++ ("/") ++ output_filename
        if env.writeOk then Except.ok (output_path, String.mk clean)
        else Except.error PyExc.ioError

/-- `merge_video_with_audio` (lines 131-192): run the body; the
`except Exception` handler (lines 190-192) turns any raised exception into
the `(None, None)` failure return. -/
def merge_video_with_audio (env : MergeEnv)
    (video_path audio_path output_folder : String) :
    Option String × Option String :=
  let _ := audio_path
  match merge_body env video_path output_folder with
  | Except.ok (p, n) => (some p, some n)
  | Except.error _ => (none, none)

/-- C1: For every pair of input files (and every outcome of the external
loading and writing steps), `merge_video_with_audio` returns the failure
value `(None, None)`: the title-cleaning step references the name `re`,
which the module never imports, so the body raises `NameError` and the
surrounding `except Exception` handler converts it into `(None, None)`. -/
theorem merge_always_returns_failure (env : MergeEnv)
    (video_path audio_path output_folder : String) :
    merge_video_with_audio env video_path audio_path output_folder = (none, none) := by
  cases hv : env.videoLoad with
  | none => simp [merge_video_with_audio, merge_body, hv]
  | some vd =>
    cases ha : env.audioLoad with
    | none => simp [merge_video_with_audio, merge_body, hv, ha]
    | some ad =>
      have hre : resolveName ("re") = Except.error (PyExc.nameError ("re")) := by
        simp [resolveName, importedNames]
      simp [merge_video_with_audio, merge_body, hv, ha, hre]

/-! ## Claims C2 and C3: duration reconciliation -/

theorem durationList_replicate (n : Nat) (c : AClip) :
    AClip.durationList (List.replicate n c) = n * AClip.duration c := by
  induction n with
  | zero => simp [AClip.durationList]
  | succ k ih =>
    simp only [List.replicate, AClip.durationList, ih]
    push_cast
    ring

/-- C2: when the audio clip is strictly shorter than the video, the composer
builds the output audio as `int(video / audio) + 1 = ⌊video / audio⌋ + 1`
whole copies of the audio clip concatenated, truncated at the video-duration
boundary with `subclip(0, video_duration)`; the concatenation genuinely
covers the boundary and the resulting audio duration equals the video
duration exactly. -/
theorem audio_looped_to_video_duration (ad vd : ℚ) (h0 : 0 < ad) (hlt : ad < vd) :
    adjustAudio (AClip.src ad) vd
      = AClip.subclip
          (AClip.concat (List.replicate (Int.toNat ⌊vd / ad⌋ + 1) (AClip.src ad))) 0 vd
    ∧ vd < AClip.duration
        (AClip.concat (List.replicate (Int.toNat ⌊vd / ad⌋ + 1) (AClip.src ad)))
    ∧ AClip.duration (adjustAudio (AClip.src ad) vd) = vd := by
  have hd : AClip.duration (AClip.src ad) = ad := rfl
  have hq0 : (0:ℚ) ≤ vd / ad :=
    div_nonneg (le_of_lt (lt_trans h0 hlt)) (le_of_lt h0)
  have hpy : pyInt (vd / ad) = ⌊vd / ad⌋ := by simp [pyInt, hq0]
  have hf0 : 0 ≤ ⌊vd / ad⌋ := Int.floor_nonneg.mpr hq0
  have hn : (pyInt (vd / ad) + 1).toNat = Int.toNat ⌊vd / ad⌋ + 1 := by
    rw [hpy]; omega
  have hadj : adjustAudio (AClip.src ad) vd
      = AClip.subclip
          (AClip.concat (List.replicate (Int.toNat ⌊vd / ad⌋ + 1) (AClip.src ad))) 0 vd := by
    unfold adjustAudio
    rw [hd, if_neg (not_lt.mpr (le_of_lt hlt)), if_pos hlt, hn]
  have hcast : ((Int.toNat ⌊vd / ad⌋ + 1 : Nat) : ℚ) = (⌊vd / ad⌋ : ℚ) + 1 := by
    have h2 : ((Int.toNat ⌊vd / ad⌋ + 1 : Nat) : ℤ) = ⌊vd / ad⌋ + 1 := by omega
    exact_mod_cast h2
  have hcover : vd < AClip.duration
      (AClip.concat (List.replicate (Int.toNat ⌊vd / ad⌋ + 1) (AClip.src ad))) := by
    have hlt1 : vd / ad < (⌊vd / ad⌋ : ℚ) + 1 := Int.lt_floor_add_one _
    have : vd < ((⌊vd / ad⌋ : ℚ) + 1) * ad := (div_lt_iff₀ h0).mp hlt1
    calc vd < ((⌊vd / ad⌋ : ℚ) + 1) * ad := this
      _ = ((Int.toNat ⌊vd / ad⌋ + 1 : Nat) : ℚ) * AClip.duration (AClip.src ad) := by
          rw [hcast, hd]
      _ = AClip.duration
            (AClip.concat (List.replicate (Int.toNat ⌊vd / ad⌋ + 1) (AClip.src ad))) := by
          rw [← durationList_replicate]
          rfl
  refine ⟨hadj, hcover, ?_⟩
  rw [hadj]
  show vd - 0 = vd
  ring

theorem audio_looped_to_video_duration_witness :
    (0:ℚ) < 1 ∧ (1:ℚ) < 5/2 ∧
    (adjustAudio (AClip.src 1) (5/2)
        = AClip.subclip
            (AClip.concat (List.replicate (Int.toNat ⌊(5/2:ℚ) / 1⌋ + 1) (AClip.src 1))) 0 (5/2)
      ∧ (5/2:ℚ) < AClip.duration
          (AClip.concat (List.replicate (Int.toNat ⌊(5/2:ℚ) / 1⌋ + 1) (AClip.src 1)))
      ∧ AClip.duration (adjustAudio (AClip.src 1) (5/2)) = 5/2) :=
  ⟨by norm_num, by norm_num,
   audio_looped_to_video_duration 1 (5/2) (by norm_num) (by norm_num)⟩

/-- C3: when the audio clip is strictly longer than the video, the composed
output audio is the original audio truncated to `[0, video_duration]` via
`subclip(0, video_duration)` (with resulting duration exactly the video
duration); when the durations are equal, the audio clip is used unchanged. -/
theorem audio_trimmed_to_video_duration (ad vd : ℚ) :
    (vd < ad →
        adjustAudio (AClip.src ad) vd = AClip.subclip (AClip.src ad) 0 vd
        ∧ AClip.duration (adjustAudio (AClip.src ad) vd) = vd)
    ∧ adjustAudio (AClip.src vd) vd = AClip.src vd := by
  constructor
  · intro h
    have hd : AClip.duration (AClip.src ad) = ad := rfl
    have h1 : adjustAudio (AClip.src ad) vd = AClip.subclip (AClip.src ad) 0 vd := by
      unfold adjustAudio
      rw [hd, if_pos h]
    refine ⟨h1, ?_⟩
    rw [h1]
    show vd - 0 = vd
    ring
  · have hd : AClip.duration (AClip.src vd) = vd := rfl
    unfold adjustAudio
    rw [hd, if_neg (lt_irrefl vd), if_neg (lt_irrefl vd)]

theorem audio_trimmed_to_video_duration_witness :
    (adjustAudio (AClip.src 3) 2 = AClip.subclip (AClip.src 3) 0 2
      ∧ AClip.duration (adjustAudio (AClip.src 3) 2) = 2)
    ∧ adjustAudio (AClip.src 2) 2 = AClip.src 2 :=
  ⟨(audio_trimmed_to_video_duration 3 2).1 (by norm_num),
   (audio_trimmed_to_video_duration 2 2).2⟩

/-! ## Claims C4 and C5: title derivation -/

theorem takeWhile_append_all {α : Type} (p : α → Bool) (l1 l2 : List α)
    (h : ∀ a ∈ l1, p a = true) :
    (l1 ++ l2).takeWhile p = l1 ++ l2.takeWhile p := by
  induction l1 with
  | nil => simp
  | cons a l ih =>
    have ha : p a = true := h a (List.mem_cons_self a l)
    simp only [List.cons_append, List.takeWhile_cons, ha, if_true]
    rw [ih (fun b hb => h b (List.mem_cons_of_mem a hb))]

theorem dropWhile_append_all {α : Type} (p : α → Bool) (l1 l2 : List α)
    (h : ∀ a ∈ l1, p a = true) :
    (l1 ++ l2).dropWhile p = l2.dropWhile p := by
  induction l1 with
  | nil => simp
  | cons a l ih =>
    have ha : p a = true := h a (List.mem_cons_self a l)
    simp only [List.cons_append, List.dropWhile_cons, ha, if_true]
    exact ih (fun b hb => h b (List.mem_cons_of_mem a hb))

/-- `re.sub(r'-\d+$', '', p ++ "-" ++ d)` removes exactly the trailing
hyphen-digits suffix when `d` is a nonempty run of digits. -/
theorem stripIdSuffix_append_digits (p d : List Char)
    (hd : d ≠ []) (hdig : ∀ c ∈ d, c.isDigit = true) :
    stripIdSuffix (p ++ '-' :: d) = p := by
  have hdig' : ∀ c ∈ d.reverse, Char.isDigit c = true := by
    intro c hc
    exact hdig c (List.mem_reverse.mp hc)
  have hrev : (p ++ '-' :: d).reverse = d.reverse ++ '-' :: p.reverse := by
    simp [List.reverse_append]
  have htk : ((p ++ '-' :: d).reverse.takeWhile Char.isDigit) = d.reverse := by
    rw [hrev, takeWhile_append_all _ _ _ hdig']
    simp [List.takeWhile_cons]
  have hdr : ((p ++ '-' :: d).reverse.dropWhile Char.isDigit) = '-' :: p.reverse := by
    rw [hrev, dropWhile_append_all _ _ _ hdig']
    simp [List.dropWhile_cons]
  have hne : d.reverse.isEmpty = false := by
    cases d with
    | nil => exact absurd rfl hd
    | cons c t => simp
  unfold stripIdSuffix stripIdSuffixAux
  rw [htk, hdr, hne]
  simp

/-- C4: the title derived from a source-video base name of the shape
`p ++ "-" ++ digits` is computed by stripping that trailing suffix, then
replacing underscores with spaces, replacing the em-dash with a hyphen and
trimming surrounding whitespace; in particular the base name
`"daily_wisdom-193847561"` yields the title `"daily wisdom"`. -/
theorem title_strips_numeric_suffix (p d : List Char) (hd : d ≠ [])
    (hdig : ∀ c ∈ d, c.isDigit = true) :
    clean_name_chars (p ++ '-' :: d)
      = pyStrip (replaceChar '—' '-' (replaceChar '_' ' ' p))
    ∧ clean_original_video_name ("daily_wisdom-193847561") = ("daily wisdom") := by
  constructor
  · unfold clean_name_chars
    rw [stripIdSuffix_append_digits p d hd hdig]
  · decide

theorem title_strips_numeric_suffix_witness :
    clean_name_chars (("daily_wisdom").data ++ '-' :: ("193847561").data)
      = pyStrip (replaceChar '—' '-' (replaceChar '_' ' ' (("daily_wisdom").data)))
    ∧ clean_original_video_name ("daily_wisdom-193847561") = ("daily wisdom") :=
  title_strips_numeric_suffix (("daily_wisdom").data) (("193847561").data)
    (by decide) (by decide)

theorem replaceChar_not_mem (a b : Char) (l : List Char) (h : a ∉ l) :
    replaceChar a b l = l := by
  induction l with
  | nil => rfl
  | cons c t ih =>
    have hc : ¬(c = a) := by
      intro hca
      exact h (by rw [hca]; exact List.mem_cons_self a t)
    have ht : a ∉ t := fun hm => h (List.mem_cons_of_mem c hm)
    simp only [replaceChar, List.map_cons, if_neg hc]
    rw [show List.map (fun c => if c = a then b else c) t = replaceChar a b t from rfl,
      ih ht]

/-- C5: the title-cleaning transformation is the identity on a name with no
trailing hyphen-digits suffix, no underscore, no em-dash and no surrounding
whitespace. -/
theorem title_idempotent_on_clean (s : String)
    (h1 : hasIdSuffix s.data = false)
    (h2 : '_' ∉ s.data)
    (h3 : '—' ∉ s.data)
    (h4 : s.data.dropWhile isPyWs = s.data)
    (h5 : s.data.reverse.dropWhile isPyWs = s.data.reverse) :
    clean_original_video_name s = s := by
  have hstrip : stripIdSuffix s.data = s.data := by
    unfold hasIdSuffix at h1
    unfold stripIdSuffix stripIdSuffixAux
    cases he : (s.data.reverse.takeWhile Char.isDigit).isEmpty with
    | true => simp
    | false =>
      simp only [he, Bool.not_false, Bool.true_and] at h1
      cases hm : s.data.reverse.dropWhile Char.isDigit with
      | nil => simp [hm]
      | cons c t =>
        rw [hm] at h1
        have hc : ¬(c = '-') := by
          intro hceq
          rw [hceq] at h1
          simp at h1
        simp [hm, hc]
  unfold clean_original_video_name clean_name_chars
  rw [hstrip, replaceChar_not_mem _ _ _ h2, replaceChar_not_mem _ _ _ h3]
  unfold pyStrip
  rw [h4, h5, List.reverse_reverse]

theorem title_idempotent_on_clean_witness :
    clean_original_video_name ("My Quote") = ("My Quote") :=
  title_idempotent_on_clean ("My Quote") (by decide) (by decide) (by decide)
    (by decide) (by decide)

/-! ## Usage tracker data model -/

/-- One entry of `posted_media_tracker.json` as written by
`save_posted_media` (lines 54-65).  Each field models one dictionary key; a
`none` value models a record in which that key is absent. -/
structure UsageRecord where
  timestamp : Option String
  source_video_url : Option String
  source_audio_url : Option String
  merged_cloudinary_url : Option String
deriving DecidableEq

/-- The state of the tracker file on disk: absent, present but not valid
JSON, or present with a parsed list of records. -/
inductive TrackerFile where
  | absent : TrackerFile
  | corrupt : TrackerFile
  | valid : List UsageRecord → TrackerFile
deriving DecidableEq

/-- `json.load` on the opened tracker file: raises `JSONDecodeError` on a
corrupt file.  (Opening an absent file would raise `ioError`, but
`get_posted_media` never opens an absent file.) -/
def json_load : TrackerFile → Except PyExc (List UsageRecord)
  | TrackerFile.absent => Except.error PyExc.ioError
  | TrackerFile.corrupt => Except.error PyExc.jsonDecodeError
  | TrackerFile.valid rs => Except.ok rs

/-- `get_posted_media` (lines 42-52): if the file does not exist, return the
empty list; otherwise `json.load` it, and turn a `JSONDecodeError` into the
empty list.  Any other exception would propagate (none can occur here). -/
def get_posted_media (f : TrackerFile) : Except PyExc (List UsageRecord) :=
  if f = TrackerFile.absent then Except.ok []
  else
    match json_load f with
    | Except.ok rs => Except.ok rs
    | Except.error PyExc.jsonDecodeError => Except.ok []
    | Except.error e => Except.error e

/-- The record list `get_posted_media` evaluates to (it never raises). -/
def gpm_val (f : TrackerFile) : List UsageRecord :=
  match get_posted_media f with
  | Except.ok rs => rs
  | Except.error _ => []

/-- `save_posted_media` (lines 54-65): re-read the tracker, append one fully
populated record, and rewrite the file. -/
def save_posted_media (f : TrackerFile)
    (video_url audio_url merged_cloudinary_url ts : String) : TrackerFile :=
  TrackerFile.valid (gpm_val f ++
    [{ timestamp := some ts,
       source_video_url := some video_url,
       source_audio_url := some audio_url,
       merged_cloudinary_url := some merged_cloudinary_url }])

/-! ## Selector (lines 67-114) -/

/-- Line 101: `[item['source_video_url'] for item in posted_media]` — the
subscript raises `KeyError` on the first record lacking the key. -/
def extractSourceUrls : List UsageRecord → Except PyExc (List String)
  | [] => Except.ok []
  | r :: rs =>
    match r.source_video_url with
    | none => Except.error (PyExc.keyError ("source_video_url"))
    | some u =>
      match extractSourceUrls rs with
      | Except.ok us => Except.ok (u :: us)
      | Except.error e => Except.error e

/-- `random.choice` with the random draw supplied as an oracle index. -/
def choiceOf (l : List String) (pick : Nat) : String :=
  l.getD (pick % l.length) ("")

def CLOUDINARY_SOURCE_VIDEO_FOLDER : String := "Quotes_Videos"
def CLOUDINARY_SOURCE_MUSIC_FOLDER : String := "backmusic"

def SUPPORTED_VIDEO_EXTENSIONS : List String :=
  [".mp4", ".avi", ".mov", ".mkv", ".webm", ".flv", ".wmv"]
def SUPPORTED_AUDIO_EXTENSIONS : List String :=
  [".mp3", ".wav", ".ogg", ".aac", ".flac"]

/-- `get_random_media_url` (lines 67-114).  The Cloudinary listing is the
`resources` input; the random draw is the `pick` oracle.  The
`except Exception` handler (lines 112-114) turns the `KeyError` that
line 101 can raise into a `None` return, which is the `Except.error → none`
branch here. -/
def get_random_media_url (folder_name : String) (supported_extensions : List String)
    (file : TrackerFile) (resources : List String) (pick : Nat) : Option String :=
  if resources.isEmpty then none
  else
    let all_urls := resources.filter
      (fun u => decide (url_ext u ∈ supported_extensions))
    if all_urls.isEmpty then none
    else if folder_name = CLOUDINARY_SOURCE_VIDEO_FOLDER then
      match extractSourceUrls (gpm_val file) with
      | Except.error _ => none
      | Except.ok posted_source_video_urls =>
        let unposted_source_urls := all_urls.filter
          (fun u => decide (u ∉ posted_source_video_urls))
        if unposted_source_urls.isEmpty then none
        else some (choiceOf unposted_source_urls pick)
    else some (choiceOf all_urls pick)

/-! ## Publisher (lines 212-258) and orchestrator (lines 260-341) -/

/-- Line 223: the merged-URL duplicate check skips records lacking the
`merged_cloudinary_url` key. -/
def mergedUrls (f : TrackerFile) : List String :=
  (gpm_val f).filterMap (fun item => item.merged_cloudinary_url)

/-- `post_video_to_facebook` (lines 212-258), instrumented with the number
of outbound publish requests issued (0 or 1).  `creds` models the presence
of `PAGE_ID` and `FB_ACCESS_TOKEN`; `netOk` models whether the HTTP POST
succeeds. -/
def post_video_to_facebook (creds : Bool) (file : TrackerFile)
    (video_url post_title : String) (netOk : Bool) : Bool × Nat :=
  let _ := post_title
  if creds = false then (false, 0)
  else if video_url ∈ mergedUrls file then (true, 0)
  else if netOk then (true, 1) else (false, 1)

/-- Lines 319-327 of `__main__`: publish the merged URL and, when the
publisher reports success, append a usage record; the third component
counts outbound publish requests. -/
def publish_and_record (file : TrackerFile)
    (video_url audio_url merged_url ts msg : String) (creds netOk : Bool) :
    Bool × TrackerFile × Nat :=
  let p := post_video_to_facebook creds file merged_url msg netOk
  if p.1 then (true, save_posted_media file video_url audio_url merged_url ts, p.2)
  else (false, file, p.2)

/-- Number of usage records naming `u` as the merged artifact URL. -/
def countMerged (f : TrackerFile) (u : String) : Nat :=
  ((gpm_val f).filter (fun r => decide (r.merged_cloudinary_url = some u))).length

/-- Number of usage records naming `u` as the source video URL. -/
def countSource (f : TrackerFile) (u : String) : Nat :=
  ((gpm_val f).filter (fun r => decide (r.source_video_url = some u))).length

/-- Line 288: the extension used for the temporary download filename —
`os.path.splitext(url.split('/')[-1].split('?')[0])[1].lower() or default`. -/
def main_ext (url : String) (dflt : String) : String :=
  let lastSeg := (url.data.reverse.takeWhile (fun c => c ≠ '/')).reverse
  let noQuery := lastSeg.takeWhile (fun c => c ≠ '?')
  let e := lowerChars (splitextExtChars noQuery)
  if e.isEmpty then dflt else String.mk e

/-- The external world of one `__main__` run: the Cloudinary folder
listings, the random draws, the download/merge/upload outcomes, the
Facebook credentials and network outcome, and the run identifier used for
the record's timestamp field. -/
structure RunEnv where
  videoResources : List String
  audioResources : List String
  videoPick : Nat
  audioPick : Nat
  downloadVideoOk : Bool
  downloadAudioOk : Bool
  mergeEnv : MergeEnv
  uploadResult : Option String
  fbCreds : Bool
  fbNetOk : Bool
  tempDir : String
  runId : String

/-- One run of `__main__` (lines 260-341) over a tracker-file state:
returns the process exit code, the tracker state after the run, and the
number of outbound Facebook publish requests issued.  Every abort path
(`sys.exit(1)`) leaves the tracker unchanged. -/
def main_run (file : TrackerFile) (env : RunEnv) : Nat × TrackerFile × Nat :=
  match get_random_media_url CLOUDINARY_SOURCE_VIDEO_FOLDER
      SUPPORTED_VIDEO_EXTENSIONS file env.videoResources env.videoPick with
  | none => (1, file, 0)
  | some video_url =>
    match get_random_media_url CLOUDINARY_SOURCE_MUSIC_FOLDER
        SUPPORTED_AUDIO_EXTENSIONS file env.audioResources env.audioPick with
    | none => (1, file, 0)
    | some audio_url =>
      let local_video := env.tempDir ++ ("/temp_source_video")
        ++ main_ext video_url (".mp4")
      let local_audio := env.tempDir ++ ("/temp_source_audio")
        ++ main_ext audio_url (".mp3")
      if env.downloadVideoOk = false then (1, file, 0)
      else if env.downloadAudioOk = false then (1, file, 0)
      else
        match merge_video_with_audio env.mergeEnv local_video local_audio env.tempDir with
        | (some merged_path, some title) =>
          if merged_path = ("") ∨ title = ("") then (1, file, 0)
          else
            match env.uploadResult with
            | none => (1, file, 0)
            | some merged_url =>
              let msg := title ++ (" #quotes #theunveiledtruth")
              let r := publish_and_record file video_url audio_url merged_url
                env.runId msg env.fbCreds env.fbNetOk
              if r.1 then (0, r.2.1, r.2.2) else (1, r.2.1, r.2.2)
        | _ => (1, file, 0)

/-- Tracker-file states reachable by sequential runs of the pipeline,
starting from no tracker file. -/
inductive Reach : TrackerFile → Prop where
  | init : Reach TrackerFile.absent
  | step : ∀ t env, Reach t → Reach (main_run t env).2.1

/-! ## Claim C9: missing or corrupt tracker file -/

/-- C9: if the tracker file is absent, or present but not parseable as
JSON, `get_posted_media` returns the empty history instead of raising; in
fact on every file state it returns a value rather than an exception. -/
theorem tracker_missing_or_corrupt_yields_empty :
    get_posted_media TrackerFile.absent = Except.ok []
    ∧ get_posted_media TrackerFile.corrupt = Except.ok []
    ∧ ∀ f : TrackerFile, ∃ rs, get_posted_media f = Except.ok rs := by
  refine ⟨rfl, rfl, ?_⟩
  intro f
  cases f with
  | absent => exact ⟨[], rfl⟩
  | corrupt => exact ⟨[], rfl⟩
  | valid rs => exact ⟨rs, rfl⟩

/-! ## Claim C6: duplicate-URL publishing -/

theorem gpm_val_valid (rs : List UsageRecord) : gpm_val (TrackerFile.valid rs) = rs := rfl

theorem gpm_val_absent : gpm_val TrackerFile.absent = [] := rfl

theorem mergedUrls_save (f : TrackerFile) (v a m ts : String) :
    mergedUrls (save_posted_media f v a m ts) = mergedUrls f ++ [m] := by
  unfold mergedUrls save_posted_media
  rw [gpm_val_valid, List.filterMap_append]
  rfl

theorem countMerged_save (f : TrackerFile) (v a m ts u : String) :
    countMerged (save_posted_media f v a m ts) u
      = countMerged f u + (if m = u then 1 else 0) := by
  unfold countMerged save_posted_media
  rw [gpm_val_valid, List.filter_append, List.length_append]
  congr 1
  by_cases h : m = u <;> simp [h]

theorem mem_mergedUrls (f : TrackerFile) (u : String) :
    u ∈ mergedUrls f ↔ ∃ r ∈ gpm_val f, r.merged_cloudinary_url = some u := by
  simp [mergedUrls, List.mem_filterMap]

/-- Tracker state and publish steps of the concrete two-run scenario used to
refute the one-record part of claim C6: both runs publish the same merged
artifact URL (the second run having selected a different source video). -/
def c6step1 : Bool × TrackerFile × Nat :=
  publish_and_record (TrackerFile.valid []) ("https://r/a.mp4") ("https://r/s.mp3")
    ("https://m/u.mp4") ("run1") ("msg1") true true

def c6step2 : Bool × TrackerFile × Nat :=
  publish_and_record c6step1.2.1 ("https://r/b.mp4") ("https://r/s.mp3")
    ("https://m/u.mp4") ("run2") ("msg2") true true

/-- C6 counterexample: publishing the same merged artifact URL in two
successive runs issues exactly one outbound publish call, but leaves TWO
usage records carrying that URL, not one: the second run's short-circuit
success still reaches `save_posted_media`. -/
theorem duplicate_publish_two_records_cex :
    c6step1.2.2 + c6step2.2.2 = 1
    ∧ countMerged c6step2.2.1 ("https://m/u.mp4") = 2
    ∧ ¬(countMerged c6step2.2.1 ("https://m/u.mp4") = 1) := by
  decide

/-- C6 amended: if the tracker already has a record with the given merged
URL, the publisher reports success with no outbound request; and publishing
the same (previously unposted) merged URL in two successive
publish-and-record steps issues exactly one outbound publish call but
appends TWO usage records carrying that URL. -/
theorem publish_idempotent_one_call_two_records
    (t talready : TrackerFile)
    (v1 a1 v2 a2 ts1 ts2 msg msg1 msg2 u ualready : String) (net : Bool)
    (hmem : ualready ∈ mergedUrls talready)
    (h0 : countMerged t u = 0) :
    post_video_to_facebook true talready ualready msg net = (true, 0)
    ∧ (publish_and_record t v1 a1 u ts1 msg1 true true).2.2
        + (publish_and_record (publish_and_record t v1 a1 u ts1 msg1 true true).2.1
            v2 a2 u ts2 msg2 true true).2.2 = 1
    ∧ countMerged ((publish_and_record
          (publish_and_record t v1 a1 u ts1 msg1 true true).2.1
          v2 a2 u ts2 msg2 true true).2.1) u = 2 := by
  have hnotmem : u ∉ mergedUrls t := by
    intro hmem'
    obtain ⟨r, hr, hru⟩ := (mem_mergedUrls t u).mp hmem'
    have hrf : r ∈ (gpm_val t).filter
        (fun r => decide (r.merged_cloudinary_url = some u)) :=
      List.mem_filter.mpr ⟨hr, by simp [hru]⟩
    have : 0 < countMerged t u :=
      List.length_pos.mpr (List.ne_nil_of_mem hrf)
    omega
  have hpost1 : post_video_to_facebook true t u msg1 true = (true, 1) := by
    simp [post_video_to_facebook, hnotmem]
  have hstep1 : publish_and_record t v1 a1 u ts1 msg1 true true
      = (true, save_posted_media t v1 a1 u ts1, 1) := by
    simp [publish_and_record, hpost1]
  have hmem1 : u ∈ mergedUrls (save_posted_media t v1 a1 u ts1) := by
    rw [mergedUrls_save]
    simp
  have hpost2 : post_video_to_facebook true (save_posted_media t v1 a1 u ts1) u msg2 true
      = (true, 0) := by
    simp [post_video_to_facebook, hmem1]
  have hstep2 : publish_and_record (save_posted_media t v1 a1 u ts1) v2 a2 u ts2 msg2 true true
      = (true, save_posted_media (save_posted_media t v1 a1 u ts1) v2 a2 u ts2, 0) := by
    simp [publish_and_record, hpost2]
  refine ⟨by simp [post_video_to_facebook, hmem], ?_, ?_⟩
  · rw [hstep1]
    simp only [hstep1, hstep2]
  · simp only [hstep1, hstep2]
    rw [countMerged_save, countMerged_save, h0]
    simp

/-- A tracker record already naming a merged artifact URL, for the C6
witness. -/
def c6rec0 : UsageRecord :=
  { timestamp := some ("t0")
    source_video_url := some ("https://r/c.mp4")
    source_audio_url := some ("https://r/s.mp3")
    merged_cloudinary_url := some ("https://m/w.mp4") }

theorem publish_idempotent_one_call_two_records_witness :
    post_video_to_facebook true (TrackerFile.valid [c6rec0])
        ("https://m/w.mp4") ("msg") true = (true, 0)
    ∧ (publish_and_record (TrackerFile.valid []) ("v1") ("a1") ("https://m/u.mp4")
          ("ts1") ("msg1") true true).2.2
        + (publish_and_record
            (publish_and_record (TrackerFile.valid []) ("v1") ("a1") ("https://m/u.mp4")
              ("ts1") ("msg1") true true).2.1
            ("v2") ("a2") ("https://m/u.mp4") ("ts2") ("msg2") true true).2.2 = 1
    ∧ countMerged ((publish_and_record
          (publish_and_record (TrackerFile.valid []) ("v1") ("a1") ("https://m/u.mp4")
            ("ts1") ("msg1") true true).2.1
          ("v2") ("a2") ("https://m/u.mp4") ("ts2") ("msg2") true true).2.1)
        ("https://m/u.mp4") = 2 :=
  publish_idempotent_one_call_two_records
    (TrackerFile.valid []) (TrackerFile.valid [c6rec0])
    ("v1") ("a1") ("v2") ("a2") ("ts1") ("ts2") ("msg") ("msg1") ("msg2")
    ("https://m/u.mp4") ("https://m/w.mp4") true (by decide) (by decide)

/-! ## Claim C8: exhaustion of eligible source videos -/

/-- C8: when the eligible-video list is empty after excluding already-used
source videos, the selector signals exhaustion by returning no URL, and the
run then aborts with exit code 1 having left the tracker unchanged (no
usage record written) and having issued no publish request. -/
theorem video_exhaustion_aborts_run (file : TrackerFile) (env : RunEnv)
    (posted_urls : List String)
    (hok : extractSourceUrls (gpm_val file) = Except.ok posted_urls)
    (hempty : (env.videoResources.filter
        (fun u => decide (url_ext u ∈ SUPPORTED_VIDEO_EXTENSIONS))).filter
        (fun u => decide (u ∉ posted_urls)) = []) :
    get_random_media_url CLOUDINARY_SOURCE_VIDEO_FOLDER SUPPORTED_VIDEO_EXTENSIONS
        file env.videoResources env.videoPick = none
    ∧ main_run file env = (1, file, 0) := by
  have hsel : get_random_media_url CLOUDINARY_SOURCE_VIDEO_FOLDER
      SUPPORTED_VIDEO_EXTENSIONS file env.videoResources env.videoPick = none := by
    unfold get_random_media_url
    cases hres : env.videoResources.isEmpty with
    | true => simp [hres]
    | false =>
      cases hall : (env.videoResources.filter
          (fun u => decide (url_ext u ∈ SUPPORTED_VIDEO_EXTENSIONS))).isEmpty with
      | true => simp [hres, hall]
      | false =>
        simp [hres, hall, hok, hempty]
        intro x hx hnp hext
        have hmem1 : x ∈ env.videoResources.filter
            (fun u => decide (url_ext u ∈ SUPPORTED_VIDEO_EXTENSIONS)) :=
          List.mem_filter.mpr ⟨hx, by simp [hext]⟩
        have hmem2 : x ∈ (env.videoResources.filter
            (fun u => decide (url_ext u ∈ SUPPORTED_VIDEO_EXTENSIONS))).filter
            (fun u => decide (u ∉ posted_urls)) :=
          List.mem_filter.mpr ⟨hmem1, by simp [hnp]⟩
        rw [hempty] at hmem2
        cases hmem2
  refine ⟨hsel, ?_⟩
  unfold main_run
  rw [hsel]

/-- Tracker state for the C8 witness: the only available source video is
already recorded. -/
def c8rec : UsageRecord :=
  { timestamp := some ("t0")
    source_video_url := some ("https://r/a.mp4")
    source_audio_url := some ("https://r/s.mp3")
    merged_cloudinary_url := some ("https://m/u.mp4") }

def c8file : TrackerFile := TrackerFile.valid [c8rec]

def c8env : RunEnv :=
  { videoResources := ["https://r/a.mp4"]
    audioResources := []
    videoPick := 0
    audioPick := 0
    downloadVideoOk := true
    downloadAudioOk := true
    mergeEnv := { videoLoad := none, audioLoad := none, writeOk := false }
    uploadResult := none
    fbCreds := false
    fbNetOk := false
    tempDir := "/tmp/w"
    runId := "r" }

theorem video_exhaustion_aborts_run_witness :
    get_random_media_url CLOUDINARY_SOURCE_VIDEO_FOLDER SUPPORTED_VIDEO_EXTENSIONS
        c8file c8env.videoResources c8env.videoPick = none
    ∧ main_run c8file c8env = (1, c8file, 0) :=
  video_exhaustion_aborts_run c8file c8env (["https://r/a.mp4"]) (by rfl) (by rfl)

/-! ## Claim C10: records lacking the source-video key -/

theorem extract_error_of_missing (rs : List UsageRecord) (r : UsageRecord)
    (hr : r ∈ rs) (hkey : r.source_video_url = none) :
    extractSourceUrls rs = Except.error (PyExc.keyError ("source_video_url")) := by
  induction rs with
  | nil => cases hr
  | cons h t ih =>
    cases List.mem_cons.mp hr with
    | inl heq =>
      have hh : h.source_video_url = none := by rw [← heq]; exact hkey
      simp [extractSourceUrls, hh]
    | inr hmem =>
      cases hh : h.source_video_url with
      | none => simp [extractSourceUrls, hh]
      | some v => simp [extractSourceUrls, hh, ih hmem]

theorem filterMap_merged_filter_isSome (rs : List UsageRecord) :
    rs.filterMap (fun item => item.merged_cloudinary_url)
      = (rs.filter (fun x => x.merged_cloudinary_url.isSome)).filterMap
          (fun item => item.merged_cloudinary_url) := by
  induction rs with
  | nil => rfl
  | cons h t ih =>
    cases hh : h.merged_cloudinary_url with
    | none => simp [List.filterMap_cons, List.filter_cons, hh, ih]
    | some v => simp [List.filterMap_cons, List.filter_cons, hh, ih]

/-- C10: a tracker whose valid JSON contains a record lacking the
`source_video_url` key does not degrade to an empty history: the key lookup
in `get_random_media_url` raises `KeyError`, the handler returns no URL,
and the run aborts with the tracker unchanged; the publisher's duplicate
check, by contrast, tolerates such entries — it behaves as if the records
lacking `merged_cloudinary_url` were filtered out. -/
theorem missing_source_key_aborts_selection (rs : List UsageRecord)
    (r : UsageRecord) (env : RunEnv) (creds : Bool) (u msg : String) (net : Bool)
    (hr : r ∈ rs) (hkey : r.source_video_url = none)
    (hurls : env.videoResources.filter
        (fun x => decide (url_ext x ∈ SUPPORTED_VIDEO_EXTENSIONS)) ≠ []) :
    extractSourceUrls rs = Except.error (PyExc.keyError ("source_video_url"))
    ∧ get_random_media_url CLOUDINARY_SOURCE_VIDEO_FOLDER SUPPORTED_VIDEO_EXTENSIONS
        (TrackerFile.valid rs) env.videoResources env.videoPick = none
    ∧ main_run (TrackerFile.valid rs) env = (1, TrackerFile.valid rs, 0)
    ∧ post_video_to_facebook creds (TrackerFile.valid rs) u msg net
        = post_video_to_facebook creds
            (TrackerFile.valid (rs.filter (fun x => x.merged_cloudinary_url.isSome)))
            u msg net := by
  have herr := extract_error_of_missing rs r hr hkey
  have hres : env.videoResources.isEmpty = false := by
    cases hx : env.videoResources with
    | nil =>
      rw [hx] at hurls
      exact absurd rfl hurls
    | cons a l => rfl
  have hall : (env.videoResources.filter
      (fun x => decide (url_ext x ∈ SUPPORTED_VIDEO_EXTENSIONS))).isEmpty = false := by
    cases hx : env.videoResources.filter
        (fun x => decide (url_ext x ∈ SUPPORTED_VIDEO_EXTENSIONS)) with
    | nil => exact absurd hx hurls
    | cons a l => rfl
  have hsel : get_random_media_url CLOUDINARY_SOURCE_VIDEO_FOLDER
      SUPPORTED_VIDEO_EXTENSIONS (TrackerFile.valid rs) env.videoResources
      env.videoPick = none := by
    unfold get_random_media_url
    simp [hres, hall, gpm_val_valid, herr]
  have hmerged : mergedUrls (TrackerFile.valid rs)
      = mergedUrls (TrackerFile.valid (rs.filter (fun x => x.merged_cloudinary_url.isSome))) := by
    unfold mergedUrls
    rw [gpm_val_valid, gpm_val_valid]
    exact filterMap_merged_filter_isSome rs
  refine ⟨herr, hsel, ?_, ?_⟩
  · unfold main_run
    rw [hsel]
  · unfold post_video_to_facebook
    rw [hmerged]

/-- A tracker record lacking the `source_video_url` key, for the C10
witness. -/
def c10rec : UsageRecord :=
  { timestamp := some ("t0")
    source_video_url := none
    source_audio_url := some ("https://r/s.mp3")
    merged_cloudinary_url := some ("https://m/u.mp4") }

def c10env : RunEnv :=
  { videoResources := ["https://r/a.mp4"]
    audioResources := []
    videoPick := 0
    audioPick := 0
    downloadVideoOk := true
    downloadAudioOk := true
    mergeEnv := { videoLoad := none, audioLoad := none, writeOk := false }
    uploadResult := none
    fbCreds := false
    fbNetOk := false
    tempDir := "/tmp/w"
    runId := "r" }

theorem missing_source_key_aborts_selection_witness :
    extractSourceUrls [c10rec] = Except.error (PyExc.keyError ("source_video_url"))
    ∧ get_random_media_url CLOUDINARY_SOURCE_VIDEO_FOLDER SUPPORTED_VIDEO_EXTENSIONS
        (TrackerFile.valid [c10rec]) c10env.videoResources c10env.videoPick = none
    ∧ main_run (TrackerFile.valid [c10rec]) c10env = (1, TrackerFile.valid [c10rec], 0)
    ∧ post_video_to_facebook true (TrackerFile.valid [c10rec])
        ("https://m/x.mp4") ("msg") true
        = post_video_to_facebook true
            (TrackerFile.valid ([c10rec].filter (fun x => x.merged_cloudinary_url.isSome)))
            ("https://m/x.mp4") ("msg") true :=
  missing_source_key_aborts_selection [c10rec] c10rec c10env true
    ("https://m/x.mp4") ("msg") true (by decide) (by decide) (by decide)

/-! ## Claim C7: source videos are never reused -/

theorem choiceOf_mem (l : List String) (pick : Nat) (h : l ≠ []) :
    choiceOf l pick ∈ l := by
  unfold choiceOf
  have hlen : 0 < l.length := List.length_pos.mpr h
  have hlt : pick % l.length < l.length := Nat.mod_lt _ hlen
  rw [List.getD_eq_getElem _ _ hlt]
  exact List.getElem_mem hlt

theorem extract_ok_mem :
    ∀ (rs : List UsageRecord) (l : List String),
      extractSourceUrls rs = Except.ok l →
      ∀ r ∈ rs, ∀ u, r.source_video_url = some u → u ∈ l := by
  intro rs
  induction rs with
  | nil =>
    intro l _ r hr
    cases hr
  | cons h t ih =>
    intro l hok r hr u hu
    cases hh : h.source_video_url with
    | none => simp [extractSourceUrls, hh] at hok
    | some v =>
      cases hex : extractSourceUrls t with
      | error e => simp [extractSourceUrls, hh, hex] at hok
      | ok us =>
        simp only [extractSourceUrls, hh, hex] at hok
        cases hok
        cases List.mem_cons.mp hr with
        | inl heq =>
          have huv : u = v := by
            have h2 : some u = some v := by rw [← hu, heq, hh]
            injection h2
          subst huv
          exact List.mem_cons_self _ _
        | inr hmem =>
          exact List.mem_cons_of_mem _ (ih us hex r hmem u hu)

/-- If the video selector returns a URL, that URL is not recorded as the
source video of any usage record in the tracker it consulted. -/
theorem get_random_video_not_posted (file : TrackerFile) (res : List String)
    (pick : Nat) (v : String)
    (h : get_random_media_url CLOUDINARY_SOURCE_VIDEO_FOLDER
        SUPPORTED_VIDEO_EXTENSIONS file res pick = some v) :
    ∀ r ∈ gpm_val file, r.source_video_url ≠ some v := by
  intro r hr hru
  unfold get_random_media_url at h
  by_cases hres : res.isEmpty = true
  · simp [hres] at h
  · simp only [hres, if_false, Bool.false_eq_true] at h
    by_cases hall : (res.filter
        (fun u => decide (url_ext u ∈ SUPPORTED_VIDEO_EXTENSIONS))).isEmpty = true
    · simp [hall] at h
    · simp only [hall, if_false, if_true, Bool.false_eq_true] at h
      cases hex : extractSourceUrls (gpm_val file) with
      | error e => rw [hex] at h; cases h
      | ok posted =>
        rw [hex] at h
        by_cases hemp : ((res.filter
            (fun u => decide (url_ext u ∈ SUPPORTED_VIDEO_EXTENSIONS))).filter
            (fun u => decide (u ∉ posted))).isEmpty = true
        · simp only [hemp, eq_self_iff_true, if_true] at h
          exact Option.noConfusion h
        · simp only [hemp, if_false, Bool.false_eq_true] at h
          have hne : (res.filter
              (fun u => decide (url_ext u ∈ SUPPORTED_VIDEO_EXTENSIONS))).filter
              (fun u => decide (u ∉ posted)) ≠ [] := by
            intro hnil
            rw [hnil] at hemp
            exact hemp rfl
          have hvmem : v ∈ (res.filter
              (fun u => decide (url_ext u ∈ SUPPORTED_VIDEO_EXTENSIONS))).filter
              (fun u => decide (u ∉ posted)) := by
            have := choiceOf_mem _ pick hne
            cases h
            exact this
          have hvnp : v ∉ posted := by
            have := (List.mem_filter.mp hvmem).2
            simpa using this
          exact hvnp (extract_ok_mem (gpm_val file) posted hex r hr v hru)

theorem countSource_save (f : TrackerFile) (v a m ts u : String) :
    countSource (save_posted_media f v a m ts) u
      = countSource f u + (if v = u then 1 else 0) := by
  unfold countSource save_posted_media
  rw [gpm_val_valid, List.filter_append, List.length_append]
  congr 1
  by_cases h : v = u <;> simp [h]

theorem countSource_zero (f : TrackerFile) (v : String)
    (hex : ∀ r ∈ gpm_val f, r.source_video_url ≠ some v) :
    countSource f v = 0 := by
  unfold countSource
  rw [List.length_eq_zero]
  rw [List.filter_eq_nil_iff]
  intro r hr
  simp only [decide_eq_true_eq]
  exact hex r hr

/-- Case analysis of one pipeline run: either the tracker is unchanged, or
exactly one record is appended whose source video URL was, at the start of
the run, not the source video URL of any existing record. -/
theorem main_run_cases (t : TrackerFile) (env : RunEnv) :
    (main_run t env).2.1 = t
    ∨ ∃ v a m, (∀ r ∈ gpm_val t, r.source_video_url ≠ some v)
        ∧ (main_run t env).2.1 = save_posted_media t v a m env.runId := by
  unfold main_run
  cases hv : get_random_media_url CLOUDINARY_SOURCE_VIDEO_FOLDER
      SUPPORTED_VIDEO_EXTENSIONS t env.videoResources env.videoPick with
  | none => left; rfl
  | some v =>
    have hex := get_random_video_not_posted t env.videoResources env.videoPick v hv
    cases ha : get_random_media_url CLOUDINARY_SOURCE_MUSIC_FOLDER
        SUPPORTED_AUDIO_EXTENSIONS t env.audioResources env.audioPick with
    | none => left; rfl
    | some a =>
      by_cases hd1 : env.downloadVideoOk = false
      · left; simp [hd1]
      · by_cases hd2 : env.downloadAudioOk = false
        · left; simp [hd1, hd2]
        · cases hm : merge_video_with_audio env.mergeEnv
              (env.tempDir ++ ("/temp_source_video") ++ main_ext v (".mp4"))
              (env.tempDir ++ ("/temp_source_audio") ++ main_ext a (".mp3"))
              env.tempDir with
          | mk mp mt =>
            cases mp with
            | none => left; simp [hd1, hd2, hm]
            | some mpath =>
              cases mt with
              | none => left; simp [hd1, hd2, hm]
              | some title =>
                by_cases hparts : mpath = ("") ∨ title = ("")
                · left; simp [hd1, hd2, hm, hparts]
                · cases hu : env.uploadResult with
                  | none => left; simp [hd1, hd2, hm, hparts, hu]
                  | some murl =>
                    by_cases hp : (post_video_to_facebook env.fbCreds t murl
                        (title ++ (" #quotes #theunveiledtruth")) env.fbNetOk).1 = true
                    · right
                      refine ⟨v, a, murl, hex, ?_⟩
                      simp [hd1, hd2, hm, hparts, hu, publish_and_record, hp]
                    · left
                      simp [hd1, hd2, hm, hparts, hu, publish_and_record, hp]

/-- C7: across all tracker states reachable by sequential pipeline runs
from the initial (absent) tracker, no URL is recorded as `source_video_url`
in more than one usage record: selection excludes every recorded source
URL, and a record is appended only for the selected URL. -/
theorem source_video_urls_never_reused (t : TrackerFile) (h : Reach t)
    (u : String) : countSource t u ≤ 1 := by
  induction h with
  | init => simp [countSource, gpm_val_absent]
  | step t' env ht ih =>
    rcases main_run_cases t' env with heq | ⟨v, a, m, hex, heq⟩
    · rw [heq]; exact ih
    · rw [heq, countSource_save]
      by_cases huv : v = u
      · subst huv
        rw [countSource_zero t' v hex]
        simp
      · rw [if_neg huv]
        omega

def c7env : RunEnv :=
  { videoResources := []
    audioResources := []
    videoPick := 0
    audioPick := 0
    downloadVideoOk := false
    downloadAudioOk := false
    mergeEnv := { videoLoad := none, audioLoad := none, writeOk := false }
    uploadResult := none
    fbCreds := false
    fbNetOk := false
    tempDir := "/tmp/w"
    runId := "r0" }

theorem source_video_urls_never_reused_witness :
    countSource ((main_run TrackerFile.absent c7env).2.1) ("https://r/a.mp4") ≤ 1 :=
  source_video_urls_never_reused ((main_run TrackerFile.absent c7env).2.1)
    (Reach.step TrackerFile.absent c7env Reach.init) ("https://r/a.mp4")
